import Mathlib

/-!
Verification of the Adam-with-decoupled-weight-decay update engine implemented
by the class `AdamWeightDecayOptimizer` in `src/src/optimizer.py`.  The
floating-point arithmetic of the source is embedded over the real numbers.
Python regular-expression search (`re.search`, from the standard library, not
part of this repository) is modelled for the pattern constructs that the
specification exercises: literal characters and the anchors `^` and `$`.
-/

namespace AdamWD

/-- Hyperparameter record stored by `AdamWeightDecayOptimizer.__init__`
(src/src/optimizer.py, lines 19 to 35).  The field
`exclude_from_weight_decay` keeps the Python distinction between `None`
and an actual list of patterns. -/
structure AdamWeightDecayOptimizer where
  learning_rate : ℝ
  weight_decay_rate : ℝ
  beta_1 : ℝ
  beta_2 : ℝ
  epsilon : ℝ
  exclude_from_weight_decay : Option (List String)

/-- Embedding of `AdamWeightDecayOptimizer.__init__`: the constructor only
assigns its arguments to fields; its body contains no validation and no
raise statement, so as a fallible Python call it always returns
successfully.  The `Except` codomain records exactly that: the result is
`Except.ok` for every argument tuple. -/
def init (learning_rate weight_decay_rate beta_1 beta_2 epsilon : ℝ)
    (exclude_from_weight_decay : Option (List String)) :
    Except String AdamWeightDecayOptimizer :=
  Except.ok
    { learning_rate := learning_rate
      weight_decay_rate := weight_decay_rate
      beta_1 := beta_1
      beta_2 := beta_2
      epsilon := epsilon
      exclude_from_weight_decay := exclude_from_weight_decay }

/-- One token of a regular expression, covering the constructs used by the
exclusion patterns of this code base: a literal character, the start
anchor `^`, or the end anchor `$`.  Models the corresponding fragment of
the Python `re` module (an external library). -/
inductive RegexToken where
  | lit (c : Char)
  | caret
  | dollar
deriving DecidableEq

/-- Parse a pattern string into tokens: `^` and `$` are anchors and every
other character is a literal, matching how `re` reads such patterns. -/
def parsePattern (p : List Char) : List RegexToken :=
  p.map fun c =>
    if c = '^' then RegexToken.caret
    else if c = '$' then RegexToken.dollar
    else RegexToken.lit c

/-- Match a token list against the suffix `rest` of the subject, where `pos`
characters of the subject have already been consumed.  The caret matches
only at position zero of the whole subject; the dollar matches only at
its end, as in `re` without the multiline flag. -/
def matchToks : List RegexToken → Nat → List Char → Bool
  | [], _, _ => true
  | RegexToken.caret :: ts, pos, rest => (pos == 0) && matchToks ts pos rest
  | RegexToken.dollar :: ts, pos, rest => rest.isEmpty && matchToks ts pos rest
  | RegexToken.lit _ :: _, _, [] => false
  | RegexToken.lit c :: ts, pos, d :: rest => (c == d) && matchToks ts (pos + 1) rest

/-- Try to match the tokens starting at every position of the subject, as
`re.search` does. -/
def searchFrom : List RegexToken → Nat → List Char → Bool
  | ts, pos, [] => matchToks ts pos []
  | ts, pos, c :: rest => matchToks ts pos (c :: rest) || searchFrom ts (pos + 1) rest

/-- Model of `re.search(pattern, name) is not None` for the patterns that
occur in this repository: true when the pattern matches somewhere inside
the name (search semantics, no implicit anchoring). -/
def reSearch (pattern name : String) : Bool :=
  searchFrom (parsePattern pattern.data) 0 name.data

/-- Embedding of `AdamWeightDecayOptimizer._do_use_weight_decay`
(src/src/optimizer.py, lines 117 to 125).  It returns false when the
stored weight-decay rate is falsy (a Python number is falsy exactly when
it equals zero); otherwise it scans a truthy exclusion list and returns
false as soon as `re.search` finds a pattern inside the parameter name,
and true when no pattern matches.  An absent (`None`) or empty exclusion
list excludes nothing, which `List.all` over the empty list reproduces. -/
noncomputable def doUseWeightDecay (weight_decay_rate : ℝ)
    (exclude_from_weight_decay : Option (List String)) (param_name : String) : Bool :=
  if weight_decay_rate = 0 then false
  else
    match exclude_from_weight_decay with
    | none => true
    | some rs => rs.all fun r => !reSearch r param_name

/-- Outcome of one dense apply step: the three values committed together by
the `control_flow_ops.group` of assignments at the end of the apply
methods. -/
structure ApplyResult where
  next_param : ℝ
  next_m : ℝ
  next_v : ℝ

/-- Embedding of `AdamWeightDecayOptimizer._resource_apply_dense`
(src/src/optimizer.py, lines 84 to 115): the two exponential moment
updates, the ratio against `sqrt(next_v) + epsilon`, the optional
decoupled decay term keyed on `var.name`, and the learning-rate scaled
subtraction from the parameter. -/
noncomputable def resourceApplyDense (opt : AdamWeightDecayOptimizer)
    (grad var m v : ℝ) (var_name : String) : ApplyResult :=
  let next_m := opt.beta_1 * m + (1 - opt.beta_1) * grad
  let next_v := opt.beta_2 * v + (1 - opt.beta_2) * (grad * grad)
  let update := next_m / (Real.sqrt next_v + opt.epsilon)
  let update2 :=
    if doUseWeightDecay opt.weight_decay_rate opt.exclude_from_weight_decay var_name then
      update + opt.weight_decay_rate * var
    else update
  let update_with_lr := opt.learning_rate * update2
  { next_param := var - update_with_lr, next_m := next_m, next_v := next_v }

/-- Modelled from the spec: `_apply_dense` derives its exclusion key through
`self._get_variable_name(var)`, but `_get_variable_name` is not defined in
any file under src (only this call site exists).  The spec applies the
exclusion policy to the parameter name uniformly in both apply paths
(`weight_decay_applies(var_name)`), so the missing helper is modelled as
yielding the name of the variable. -/
def getVariableName (var_name : String) : String := var_name

/-- Embedding of `AdamWeightDecayOptimizer._apply_dense`
(src/src/optimizer.py, lines 51 to 82): arithmetic identical to the
resource path, with the exclusion key derived through `getVariableName`. -/
noncomputable def applyDense (opt : AdamWeightDecayOptimizer)
    (grad var m v : ℝ) (var_name : String) : ApplyResult :=
  let next_m := opt.beta_1 * m + (1 - opt.beta_1) * grad
  let next_v := opt.beta_2 * v + (1 - opt.beta_2) * (grad * grad)
  let update := next_m / (Real.sqrt next_v + opt.epsilon)
  let update2 :=
    if doUseWeightDecay opt.weight_decay_rate opt.exclude_from_weight_decay
        (getVariableName var_name) then
      update + opt.weight_decay_rate * var
    else update
  let update_with_lr := opt.learning_rate * update2
  { next_param := var - update_with_lr, next_m := next_m, next_v := next_v }

/-- State of one parameter across apply steps: its value followed by the two
moment accumulators `m` and `v`. -/
abbrev ParamState := ℝ × ℝ × ℝ

/-- Iterated application of `_resource_apply_dense` to one parameter, feeding
the gradient stream `grads`: `runSteps opt grads name s0 t` is the
(value, m, v) state after `t` apply steps starting from `s0`. -/
noncomputable def runSteps (opt : AdamWeightDecayOptimizer) (grads : ℕ → ℝ)
    (name : String) (s0 : ParamState) : ℕ → ParamState
  | 0 => s0
  | t + 1 =>
      let s := runSteps opt grads name s0 t
      let r := resourceApplyDense opt (grads t) s.1 s.2.1 s.2.2 name
      (r.next_param, r.next_m, r.next_v)

/-- Slot store of the engine: for each registered variable name, its pair of
moment accumulators (m, v). -/
abbrev SlotState := List (String × (ℝ × ℝ))

/-- Modelled from the spec: `_zeros_slot` lives in the TensorFlow optimizer
base class, outside this repository.  Per the spec, slot creation
allocates a zero accumulator pair for a parameter and must not create a
duplicate for an already-registered one, so the entry is created only
when absent (find-or-create). -/
def zerosSlot (s : SlotState) (vname : String) : SlotState :=
  if (s.lookup vname).isSome then s else (vname, (0, 0)) :: s

/-- Embedding of `AdamWeightDecayOptimizer._create_slots`
(src/src/optimizer.py, lines 46 to 49): walk the variable list and create
the moment slots of each variable.  The model keeps one entry per
variable holding both accumulators. -/
def createSlots (s : SlotState) (var_list : List String) : SlotState :=
  match var_list with
  | [] => s
  | vname :: rest => createSlots (zerosSlot s vname) rest

/-- One apply call that reads the accumulators of `var_name` from the slot
store, as the apply methods do through `get_slot`; it fails when the
slots were never created. -/
noncomputable def applyOnSlots (opt : AdamWeightDecayOptimizer) (s : SlotState)
    (grad var : ℝ) (var_name : String) : Option ApplyResult :=
  match s.lookup var_name with
  | none => none
  | some mv => some (resourceApplyDense opt grad var mv.1 mv.2 var_name)

/-- Constant gradient stream, used to instantiate run theorems at concrete
inputs. -/
def constGrads (x : ℝ) : ℕ → ℝ := fun _ => x

end AdamWD

namespace AdamWD

theorem zerosSlot_lookup_isSome_self (s : SlotState) (n : String) :
    ((zerosSlot s n).lookup n).isSome := by
  unfold zerosSlot
  split
  · assumption
  · simp [List.lookup]

theorem zerosSlot_lookup_isSome_mono (s : SlotState) (n x : String)
    (h : (s.lookup x).isSome) : ((zerosSlot s n).lookup x).isSome := by
  unfold zerosSlot
  split
  · exact h
  · simp only [List.lookup]
    split
    · simp
    · exact h

theorem createSlots_lookup_isSome_mono (l : List String) (s : SlotState) (x : String)
    (h : (s.lookup x).isSome) : ((createSlots s l).lookup x).isSome := by
  induction l generalizing s with
  | nil => exact h
  | cons n rest ih => exact ih _ (zerosSlot_lookup_isSome_mono s n x h)

theorem createSlots_lookup_isSome_of_mem (l : List String) (s : SlotState) (x : String)
    (hx : x ∈ l) : ((createSlots s l).lookup x).isSome := by
  induction l generalizing s with
  | nil => cases hx
  | cons n rest ih =>
      rcases List.mem_cons.mp hx with rfl | hx2
      · exact createSlots_lookup_isSome_mono rest _ x (zerosSlot_lookup_isSome_self s x)
      · exact ih _ hx2

theorem zerosSlot_of_isSome (s : SlotState) (n : String)
    (h : (s.lookup n).isSome) : zerosSlot s n = s := by
  unfold zerosSlot
  exact if_pos h

theorem createSlots_of_all_isSome (l : List String) (s : SlotState)
    (h : ∀ x ∈ l, (s.lookup x).isSome) : createSlots s l = s := by
  induction l with
  | nil => rfl
  | cons n rest ih =>
      have hn := h n (List.mem_cons_self n rest)
      unfold createSlots
      rw [zerosSlot_of_isSome s n hn]
      exact ih fun x hx => h x (List.mem_cons_of_mem n hx)

/-- C1: at every step t of a run, one dense apply produces exactly
next_m = beta_1 * m + (1 - beta_1) * grad,
next_v = beta_2 * v + (1 - beta_2) * grad^2,
next_var = var - learning_rate * (next_m / (sqrt(next_v) + epsilon) + decay),
where decay is weight_decay_rate * var exactly when weight decay applies and
zero otherwise.  The recurrence is the same at every step index, with no
division by 1 - beta_1^t or 1 - beta_2^t anywhere. -/
theorem adam_step_formula_no_bias_correction (opt : AdamWeightDecayOptimizer)
    (grads : ℕ → ℝ) (name : String) (s0 : ParamState) (t : ℕ) :
    (runSteps opt grads name s0 (t + 1)).2.1 =
        opt.beta_1 * (runSteps opt grads name s0 t).2.1 + (1 - opt.beta_1) * grads t ∧
    (runSteps opt grads name s0 (t + 1)).2.2 =
        opt.beta_2 * (runSteps opt grads name s0 t).2.2 + (1 - opt.beta_2) * grads t ^ 2 ∧
    (runSteps opt grads name s0 (t + 1)).1 =
        (runSteps opt grads name s0 t).1 -
          opt.learning_rate *
            ((runSteps opt grads name s0 (t + 1)).2.1 /
                (Real.sqrt ((runSteps opt grads name s0 (t + 1)).2.2) + opt.epsilon) +
              (if doUseWeightDecay opt.weight_decay_rate opt.exclude_from_weight_decay name
               then opt.weight_decay_rate * (runSteps opt grads name s0 t).1 else 0)) := by
  refine ⟨?_, ?_, ?_⟩
  · simp only [runSteps, resourceApplyDense]
  · simp only [runSteps, resourceApplyDense]
    ring
  · cases hd : doUseWeightDecay opt.weight_decay_rate opt.exclude_from_weight_decay name with
    | false =>
        simp only [runSteps, resourceApplyDense, hd, Bool.false_eq_true, if_false]
        ring
    | true =>
        simp only [runSteps, resourceApplyDense, hd, if_true]

/-- C2 counterexample: constructing with beta_1 = 2 (outside the open
interval (0,1)), or with epsilon = -1 (not positive), succeeds and reports
no error, contradicting the claim that such a construction reports a
configuration error. -/
theorem init_accepts_invalid_hyperparameters :
    init (1 / 100) 0 2 (999 / 1000) (1 / 1000000) none =
      Except.ok
        { learning_rate := 1 / 100, weight_decay_rate := 0, beta_1 := 2,
          beta_2 := 999 / 1000, epsilon := 1 / 1000000,
          exclude_from_weight_decay := none } ∧
    init (1 / 100) 0 (9 / 10) (999 / 1000) (-1) none =
      Except.ok
        { learning_rate := 1 / 100, weight_decay_rate := 0, beta_1 := 9 / 10,
          beta_2 := 999 / 1000, epsilon := -1,
          exclude_from_weight_decay := none } := ⟨rfl, rfl⟩

/-- C2 amended: construction performs no hyperparameter validation at all:
for every argument tuple, including beta_1 or beta_2 outside (0,1) and
epsilon not positive, the constructor succeeds and stores the arguments
unchanged; no configuration error is reported at construction. -/
theorem init_always_ok_stores_arguments (lr wdr b1 b2 eps : ℝ)
    (ex : Option (List String)) :
    init lr wdr b1 b2 eps ex =
      Except.ok
        { learning_rate := lr, weight_decay_rate := wdr, beta_1 := b1,
          beta_2 := b2, epsilon := eps, exclude_from_weight_decay := ex } := rfl

/-- C3: whenever the weight-decay rate equals zero, the weight-decay decision
is false, for every parameter name and every exclusion list. -/
theorem zero_decay_rate_disables_weight_decay (excl : Option (List String))
    (name : String) (wdr : ℝ) (h : wdr = 0) :
    doUseWeightDecay wdr excl name = false := by
  simp [doUseWeightDecay, h]

theorem zero_decay_rate_disables_weight_decay_witness :
    (0 : ℝ) = 0 ∧ doUseWeightDecay 0 (some ["bias"]) "layer1/bias" = false :=
  ⟨rfl, zero_decay_rate_disables_weight_decay (some ["bias"]) "layer1/bias" 0 rfl⟩

/-- C4: with a nonzero weight-decay rate, exclusion matching has search
semantics: the unanchored pattern "bias" is found inside "layer1/bias" and
turns the decision false, while the anchored pattern only containing
"^bias$" does not match "layer1/bias", so the decision stays true. -/
theorem exclusion_uses_regex_search (wdr : ℝ) (h : wdr ≠ 0) :
    doUseWeightDecay wdr (some ["bias"]) "layer1/bias" = false ∧
    doUseWeightDecay wdr (some ["^bias$"]) "layer1/bias" = true := by
  constructor
  · simp only [doUseWeightDecay, if_neg h]
    decide
  · simp only [doUseWeightDecay, if_neg h]
    decide

theorem exclusion_uses_regex_search_witness :
    (1 : ℝ) ≠ 0 ∧
    (doUseWeightDecay 1 (some ["bias"]) "layer1/bias" = false ∧
      doUseWeightDecay 1 (some ["^bias$"]) "layer1/bias" = true) :=
  ⟨by norm_num, exclusion_uses_regex_search 1 (by norm_num)⟩

/-- C5: under an everywhere-zero gradient stream and zero-initialized
accumulators, when weight decay does not apply every step leaves the state
exactly at (var, 0, 0); and when weight decay does apply, a step with zero
gradient changes the parameter only by the decay term, giving
next_var = var - learning_rate * (weight_decay_rate * var) while m and v
stay zero. -/
theorem zero_gradient_fixed_point (opt : AdamWeightDecayOptimizer)
    (grads : ℕ → ℝ) (name : String) (var0 : ℝ) (hg : ∀ t, grads t = 0) :
    (doUseWeightDecay opt.weight_decay_rate opt.exclude_from_weight_decay name = false →
      ∀ t, runSteps opt grads name (var0, 0, 0) t = (var0, 0, 0)) ∧
    (doUseWeightDecay opt.weight_decay_rate opt.exclude_from_weight_decay name = true →
      resourceApplyDense opt (grads 0) var0 0 0 name =
        { next_param := var0 - opt.learning_rate * (opt.weight_decay_rate * var0),
          next_m := 0, next_v := 0 }) := by
  constructor
  · intro hfalse t
    induction t with
    | zero => rfl
    | succ t ih =>
        simp only [runSteps, ih, resourceApplyDense, hfalse, Bool.false_eq_true, if_false]
        simp [hg]
  · intro htrue
    simp only [resourceApplyDense, htrue, if_true]
    simp [hg, ApplyResult.mk.injEq]

theorem zero_gradient_fixed_point_witness :
    (∀ t, constGrads 0 t = 0) ∧
    runSteps ⟨1 / 100, 0, 9 / 10, 999 / 1000, 1 / 1000000, none⟩ (constGrads 0) "w"
        (1, 0, 0) 3 = (1, 0, 0) ∧
    resourceApplyDense ⟨1 / 100, 1 / 100, 9 / 10, 999 / 1000, 1 / 1000000, none⟩
        (constGrads 0 0) 1 0 0 "w" =
      { next_param := 1 - (1 / 100 : ℝ) * ((1 / 100) * 1), next_m := 0, next_v := 0 } :=
  ⟨fun _ => rfl,
    (zero_gradient_fixed_point ⟨1 / 100, 0, 9 / 10, 999 / 1000, 1 / 1000000, none⟩
        (constGrads 0) "w" 1 (fun _ => rfl)).1 (by simp [doUseWeightDecay]) 3,
    (zero_gradient_fixed_point ⟨1 / 100, 1 / 100, 9 / 10, 999 / 1000, 1 / 1000000, none⟩
        (constGrads 0) "w" 1 (fun _ => rfl)).2 (by norm_num [doUseWeightDecay])⟩

/-- C6: when the stored weight-decay rate equals zero, the quantity
subtracted from the parameter, var - next_param = learning_rate * update,
and the new accumulators are all independent of the current parameter
value: two runs differing only in the parameter value agree on them. -/
theorem update_independent_of_param_without_decay (opt : AdamWeightDecayOptimizer)
    (h : opt.weight_decay_rate = 0) (grad m v : ℝ) (name : String) (var1 var2 : ℝ) :
    var1 - (resourceApplyDense opt grad var1 m v name).next_param =
      var2 - (resourceApplyDense opt grad var2 m v name).next_param ∧
    (resourceApplyDense opt grad var1 m v name).next_m =
      (resourceApplyDense opt grad var2 m v name).next_m ∧
    (resourceApplyDense opt grad var1 m v name).next_v =
      (resourceApplyDense opt grad var2 m v name).next_v := by
  have hd : doUseWeightDecay opt.weight_decay_rate opt.exclude_from_weight_decay name
      = false := by
    simp [doUseWeightDecay, h]
  refine ⟨?_, rfl, rfl⟩
  simp [resourceApplyDense, hd]

theorem update_independent_of_param_without_decay_witness :
    (⟨1 / 100, 0, 9 / 10, 999 / 1000, 1 / 1000000, none⟩ :
        AdamWeightDecayOptimizer).weight_decay_rate = 0 ∧
    ((1 : ℝ) -
        (resourceApplyDense ⟨1 / 100, 0, 9 / 10, 999 / 1000, 1 / 1000000, none⟩
            5 1 0 0 "w").next_param =
      (2 : ℝ) -
        (resourceApplyDense ⟨1 / 100, 0, 9 / 10, 999 / 1000, 1 / 1000000, none⟩
            5 2 0 0 "w").next_param ∧
      (resourceApplyDense ⟨1 / 100, 0, 9 / 10, 999 / 1000, 1 / 1000000, none⟩
            5 1 0 0 "w").next_m =
        (resourceApplyDense ⟨1 / 100, 0, 9 / 10, 999 / 1000, 1 / 1000000, none⟩
            5 2 0 0 "w").next_m ∧
      (resourceApplyDense ⟨1 / 100, 0, 9 / 10, 999 / 1000, 1 / 1000000, none⟩
            5 1 0 0 "w").next_v =
        (resourceApplyDense ⟨1 / 100, 0, 9 / 10, 999 / 1000, 1 / 1000000, none⟩
            5 2 0 0 "w").next_v) :=
  ⟨rfl,
    update_independent_of_param_without_decay
      ⟨1 / 100, 0, 9 / 10, 999 / 1000, 1 / 1000000, none⟩ rfl 5 0 0 "w" 1 2⟩

/-- C7: slot creation is idempotent: running create_slots a second time over
the same variable list leaves the slot store unchanged, because a slot is
created only when absent; consequently any subsequent apply call through
the store behaves identically after one or two create_slots passes. -/
theorem createSlots_idempotent (s : SlotState) (l : List String) :
    createSlots (createSlots s l) l = createSlots s l ∧
    ∀ (opt : AdamWeightDecayOptimizer) (grad var : ℝ) (name : String),
      applyOnSlots opt (createSlots (createSlots s l) l) grad var name =
        applyOnSlots opt (createSlots s l) grad var name := by
  have h : createSlots (createSlots s l) l = createSlots s l :=
    createSlots_of_all_isSome l (createSlots s l)
      (fun x hx => createSlots_lookup_isSome_of_mem l s x hx)
  exact ⟨h, fun opt grad var name => by rw [h]⟩

/-- C8: the two dense apply paths compute identical results for every
parameter, gradient, accumulator state and hyperparameters, making the
same weight-decay decision; the name helper of the non-resource path is
modelled from the spec (see getVariableName) because it is not defined
under src. -/
theorem apply_paths_equivalent (opt : AdamWeightDecayOptimizer)
    (grad var m v : ℝ) (name : String) :
    applyDense opt grad var m v name = resourceApplyDense opt grad var m v name := rfl

/-- C9: starting from zero-initialized accumulators, with beta_2 in (0,1)
and positive epsilon, the second-moment accumulator stays nonnegative
after every number of steps, and the denominator sqrt(v) + epsilon of the
update ratio is strictly positive, so the division is never by zero. -/
theorem second_moment_nonneg_denominator_pos (opt : AdamWeightDecayOptimizer)
    (grads : ℕ → ℝ) (name : String) (var0 : ℝ)
    (hb2a : 0 < opt.beta_2) (hb2b : opt.beta_2 < 1) (heps : 0 < opt.epsilon) (t : ℕ) :
    0 ≤ (runSteps opt grads name (var0, 0, 0) t).2.2 ∧
      0 < Real.sqrt ((runSteps opt grads name (var0, 0, 0) t).2.2) + opt.epsilon := by
  have hv : ∀ t, 0 ≤ (runSteps opt grads name (var0, 0, 0) t).2.2 := by
    intro t
    induction t with
    | zero => simp [runSteps]
    | succ t ih =>
        simp only [runSteps, resourceApplyDense]
        have h1 : 0 ≤ opt.beta_2 * (runSteps opt grads name (var0, 0, 0) t).2.2 :=
          mul_nonneg hb2a.le ih
        have h2 : 0 ≤ (1 - opt.beta_2) * (grads t * grads t) :=
          mul_nonneg (by linarith) (mul_self_nonneg _)
        linarith
  exact ⟨hv t, add_pos_of_nonneg_of_pos (Real.sqrt_nonneg _) heps⟩

theorem second_moment_nonneg_denominator_pos_witness :
    ((0 : ℝ) < (⟨1 / 100, 0, 9 / 10, 1 / 2, 1, none⟩ :
        AdamWeightDecayOptimizer).beta_2 ∧
      (⟨1 / 100, 0, 9 / 10, 1 / 2, 1, none⟩ :
        AdamWeightDecayOptimizer).beta_2 < 1 ∧
      (0 : ℝ) < (⟨1 / 100, 0, 9 / 10, 1 / 2, 1, none⟩ :
        AdamWeightDecayOptimizer).epsilon) ∧
    (0 ≤ (runSteps ⟨1 / 100, 0, 9 / 10, 1 / 2, 1, none⟩ (constGrads 1) "w"
          (1, 0, 0) 2).2.2 ∧
      0 < Real.sqrt ((runSteps ⟨1 / 100, 0, 9 / 10, 1 / 2, 1, none⟩ (constGrads 1) "w"
          (1, 0, 0) 2).2.2) +
        (⟨1 / 100, 0, 9 / 10, 1 / 2, 1, none⟩ : AdamWeightDecayOptimizer).epsilon) :=
  ⟨⟨by norm_num, by norm_num, by norm_num⟩,
    second_moment_nonneg_denominator_pos ⟨1 / 100, 0, 9 / 10, 1 / 2, 1, none⟩
      (constGrads 1) "w" 1 (by norm_num) (by norm_num) (by norm_num) 2⟩

/-- C10: with a nonzero weight-decay rate and an exclusion list that is
either absent (None) or empty, the weight-decay decision is true for
every parameter name; and whenever the stored rate is falsy (equal to
zero, the falsiness condition of a Python number), the decision is false
for every exclusion list and name. -/
theorem decay_applies_without_exclusions_and_falsy_rate_disables
    (wdr : ℝ) (name : String) :
    (wdr ≠ 0 →
      doUseWeightDecay wdr none name = true ∧
        doUseWeightDecay wdr (some []) name = true) ∧
    (wdr = 0 → ∀ excl, doUseWeightDecay wdr excl name = false) := by
  constructor
  · intro h
    constructor
    · simp [doUseWeightDecay, h]
    · simp [doUseWeightDecay, h]
  · intro h excl
    simp [doUseWeightDecay, h]

theorem decay_applies_without_exclusions_and_falsy_rate_disables_witness :
    ((1 : ℝ) ≠ 0 ∧
      (doUseWeightDecay 1 none "layer1/kernel" = true ∧
        doUseWeightDecay 1 (some []) "layer1/kernel" = true)) ∧
    ((0 : ℝ) = 0 ∧ doUseWeightDecay 0 (some ["bias"]) "layer1/kernel" = false) :=
  ⟨⟨by norm_num,
      (decay_applies_without_exclusions_and_falsy_rate_disables 1 "layer1/kernel").1
        (by norm_num)⟩,
    ⟨rfl,
      (decay_applies_without_exclusions_and_falsy_rate_disables 0 "layer1/kernel").2
        rfl (some ["bias"])⟩⟩

end AdamWD
